import Mathlib

/-!
# cuda-rdma-bench: error translation tables and tiered logger

A shallow embedding of

* `lgpu2rgpu-dma/old/reporting.c` (`error_codes`, `error_strings`,
  `SCIGetErrorString`, `log_info`, `log_warn`, `log_error`, `log_debug`), and
* `rdma-bench/errstr.c` (`error_codes`, `error_strings`, `GetErrorString`),
* `log_ioaddr` of `reporting.c`,
* the directional copies that `src/gpu.h` declares, and
* logger calls of several threads, scheduled at the level of the stdio calls.

The numeric values of the `SCI_ERR_*` constants come from `sisci_api.h`, which
is a vendor header; they are a parameter of the development (`SisciHeader`).
A C `char` is a Lean `Char`, a C string or buffer is a `List Char`.
-/

set_option autoImplicit false

/-! ## The `SCI_ERR_*` constants -/

/-- The names of the `SCI_ERR_*` constants that the two tables mention. -/
inductive SciErr where
  | SCI_ERR_OK
  | SCI_ERR_BUSY
  | SCI_ERR_FLAG_NOT_IMPLEMENTED
  | SCI_ERR_ILLEGAL_FLAG
  | SCI_ERR_NOSPC
  | SCI_ERR_API_NOSPC
  | SCI_ERR_HW_NOSPC
  | SCI_ERR_NOT_IMPLEMENTED
  | SCI_ERR_ILLEGAL_ADAPTERNO
  | SCI_ERR_NO_SUCH_ADAPTERNO
  | SCI_ERR_TIMEOUT
  | SCI_ERR_OUT_OF_RANGE
  | SCI_ERR_NO_SUCH_SEGMENT
  | SCI_ERR_ILLEGAL_NODEID
  | SCI_ERR_CONNECTION_REFUSED
  | SCI_ERR_SEGMENT_NOT_CONNECTED
  | SCI_ERR_SIZE_ALIGNMENT
  | SCI_ERR_OFFSET_ALIGNMENT
  | SCI_ERR_ILLEGAL_PARAMETER
  | SCI_ERR_MAX_ENTRIES
  | SCI_ERR_SEGMENT_NOT_PREPARED
  | SCI_ERR_ILLEGAL_ADDRESS
  | SCI_ERR_ILLEGAL_OPERATION
  | SCI_ERR_ILLEGAL_QUERY
  | SCI_ERR_SEGMENTID_USED
  | SCI_ERR_SYSTEM
  | SCI_ERR_CANCELLED
  | SCI_ERR_NOT_CONNECTED
  | SCI_ERR_NOT_AVAILABLE
  | SCI_ERR_INCONSISTENT_VERSIONS
  | SCI_ERR_COND_INT_RACE_PROBLEM
  | SCI_ERR_OVERFLOW
  | SCI_ERR_NOT_INITIALIZED
  | SCI_ERR_ACCESS
  | SCI_ERR_NOT_SUPPORTED
  | SCI_ERR_DEPRECATED
  | SCI_ERR_NO_SUCH_NODEID
  | SCI_ERR_NODE_NOT_RESPONDING
  | SCI_ERR_NO_REMOTE_LINK_ACCESS
  | SCI_ERR_NO_LINK_ACCESS
  | SCI_ERR_TRANSFER_FAILED
  | SCI_ERR_EWOULD_BLOCK
  | SCI_ERR_SEMAPHORE_COUNT_EXCEEDED
  | SCI_ERR_IRQL_ILLEGAL
  | SCI_ERR_REMOTE_BUSY
  | SCI_ERR_LOCAL_BUSY
  | SCI_ERR_ALL_BUSY
  deriving DecidableEq, Repr

open SciErr

/-- The content of `sisci_api.h` that the tables depend on: the value of each
`SCI_ERR_*` constant, as the `unsigned` it becomes when stored in `error_codes`
and when compared with it. -/
abbrev SisciHeader := SciErr → Nat

/-- The `SCI_ERR_*` constants are pairwise distinct values. -/
def SisciHeader.Distinct (hdr : SisciHeader) : Prop :=
  Function.Injective hdr

/-- The constants in the order in which both `error_codes` initialisers list
them (`reporting.c` lines 28-74, `errstr.c` lines 11-57). -/
def listedCodes : List SciErr :=
  [ SCI_ERR_OK,
    SCI_ERR_BUSY,
    SCI_ERR_FLAG_NOT_IMPLEMENTED,
    SCI_ERR_ILLEGAL_FLAG,
    SCI_ERR_NOSPC,
    SCI_ERR_API_NOSPC,
    SCI_ERR_HW_NOSPC,
    SCI_ERR_NOT_IMPLEMENTED,
    SCI_ERR_ILLEGAL_ADAPTERNO,
    SCI_ERR_NO_SUCH_ADAPTERNO,
    SCI_ERR_TIMEOUT,
    SCI_ERR_OUT_OF_RANGE,
    SCI_ERR_NO_SUCH_SEGMENT,
    SCI_ERR_ILLEGAL_NODEID,
    SCI_ERR_CONNECTION_REFUSED,
    SCI_ERR_SEGMENT_NOT_CONNECTED,
    SCI_ERR_SIZE_ALIGNMENT,
    SCI_ERR_OFFSET_ALIGNMENT,
    SCI_ERR_ILLEGAL_PARAMETER,
    SCI_ERR_MAX_ENTRIES,
    SCI_ERR_SEGMENT_NOT_PREPARED,
    SCI_ERR_ILLEGAL_ADDRESS,
    SCI_ERR_ILLEGAL_OPERATION,
    SCI_ERR_ILLEGAL_QUERY,
    SCI_ERR_SEGMENTID_USED,
    SCI_ERR_SYSTEM,
    SCI_ERR_CANCELLED,
    SCI_ERR_NOT_CONNECTED,
    SCI_ERR_NOT_AVAILABLE,
    SCI_ERR_INCONSISTENT_VERSIONS,
    SCI_ERR_COND_INT_RACE_PROBLEM,
    SCI_ERR_OVERFLOW,
    SCI_ERR_NOT_INITIALIZED,
    SCI_ERR_ACCESS,
    SCI_ERR_NOT_SUPPORTED,
    SCI_ERR_DEPRECATED,
    SCI_ERR_NO_SUCH_NODEID,
    SCI_ERR_NODE_NOT_RESPONDING,
    SCI_ERR_NO_REMOTE_LINK_ACCESS,
    SCI_ERR_NO_LINK_ACCESS,
    SCI_ERR_TRANSFER_FAILED,
    SCI_ERR_EWOULD_BLOCK,
    SCI_ERR_SEMAPHORE_COUNT_EXCEEDED,
    SCI_ERR_IRQL_ILLEGAL,
    SCI_ERR_REMOTE_BUSY,
    SCI_ERR_LOCAL_BUSY,
    SCI_ERR_ALL_BUSY ]

/-- The linear scan shared by `SCIGetErrorString` and `GetErrorString`:
`for (idx = 0; idx < len; ++idx) if (error_codes[idx] == code) return error_strings[idx];`
followed by `return sentinel;`.  The second argument is the part of
`error_codes` not yet visited and `idx` the index of its head.  The result is
`none` when `error_strings[idx]` is read at an index past the end of the
array (undefined behaviour in C). -/
def scanTable (error_strings : List String) (sentinel : String) (code : Nat) :
    List Nat → Nat → Option String
  | [], _ => some sentinel
  | c :: rest, idx =>
    if c = code then error_strings[idx]?
    else scanTable error_strings sentinel code rest (idx + 1)

/-! ## `lgpu2rgpu-dma/old/reporting.c` -/

namespace Reporting

/-- The array `static unsigned error_codes[]` of `reporting.c`. -/
def error_codes (hdr : SisciHeader) : List Nat :=
  listedCodes.map hdr

/-- The array `static const char* error_strings[]` of `reporting.c`. -/
def error_strings : List String :=
  [ "OK",
    "Resource busy",
    "Flag option is not implemented",
    "Illegal flag option",
    "Out of local resources",
    "Out of local API resources",
    "Out of hardware resources",
    "Not implemented",
    "Illegal adapter number",
    "Adapter not found",
    "Operation timed out",
    "Out of range",
    "Segment ID not found",
    "Illegal node ID",
    "Connection to remote node is refused",
    "No connection to segment",
    "Size is not aligned",
    "Offset is not aligned",
    "Illegal function parameter",
    "Maximum possible physical mapping is exceeded",
    "Segment is not prepared",
    "Illegal address",
    "Illegal operation",
    "Illegal query operation",
    "Segment ID already used",
    "Could not get requested resource from the system",
    "Operation cancelled",
    "Host is not connected to remote host",
    "Operation not available",
    "Inconsistent driver version",
    "Out of local resources",
    "Host not initialized",
    "No local or remote access for requested operation",
    "Request not supported",
    "Function deprecated",
    "Node ID not found",
    "Node does not respond",
    "Remote link is not operational",
    "Local link is not operational",
    "Transfer failed",
    "Illegal interrupt line",
    "Remote host is busy",
    "Local host is busy",
    "System is busy" ]

/-- The function `const char* SCIGetErrorString(sci_error_t code)`. -/
def SCIGetErrorString (hdr : SisciHeader) (code : Nat) : Option String :=
  scanTable error_strings "Unknown error" code (error_codes hdr) 0

end Reporting

/-! ## `rdma-bench/errstr.c` -/

namespace Errstr

/-- The array `static unsigned error_codes[]` of `errstr.c`. -/
def error_codes (hdr : SisciHeader) : List Nat :=
  listedCodes.map hdr

/-- The array `static const char* error_strings[]` of `errstr.c`. -/
def error_strings : List String :=
  [ "OK",
    "Resource busy",
    "Flag option is not implemented",
    "Illegal flag option",
    "Out of local resources",
    "Out of local API resources",
    "Out of hardware resources",
    "Not implemented",
    "Illegal adapter number",
    "Adapter not found",
    "Operation timed out",
    "Out of range",
    "Segment ID not found",
    "Illegal node ID",
    "Connection to remote node is refused",
    "No connection to segment",
    "Size is not aligned",
    "Offset is not aligned",
    "Illegal function parameter",
    "Maximum possible physical mapping is exceeded",
    "Segment is not prepared",
    "Illegal address",
    "Illegal operation",
    "Illegal query operation",
    "Segment ID already used",
    "Could not get requested resource from the system",
    "Operation cancelled",
    "Host is not connected to remote host",
    "Operation not available",
    "Inconsistent driver version",
    "Out of local resources",
    "Host not initialized",
    "No local or remote access for requested operation",
    "Request not supported",
    "Function deprecated",
    "Node ID not found",
    "Node does not respond",
    "Remote link is not operational",
    "Local link is not operational",
    "Transfer failed",
    "Illegal interrupt line",
    "Remote host is busy",
    "Local host is busy",
    "System is busy" ]

/-- The function `const char* GetErrorString(sci_error_t code)`. -/
def GetErrorString (hdr : SisciHeader) (code : Nat) : Option String :=
  scanTable error_strings "Undocumented error" code (error_codes hdr) 0

end Errstr

/-! ## The C library calls the loggers make

`vsnprintf`, `fwrite` and `fflush` are libc; they are embedded after the C
standard.  The diagnostic stream is a pair of the output already handed to
the operating system and the output still held in the stream's buffer. -/

/-- The terminating byte of a C string. -/
def NUL : Char := Char.ofNat 0

/-- The line terminator that the loggers write. -/
def NEWLINE : Char := Char.ofNat 10

/-- A string literal of the C source as the array object it denotes: its
characters followed by the terminating `NUL`. -/
def cstr (lit : String) : List Char :=
  lit.data ++ [NUL]

/-- A `FILE` open for writing. -/
structure FileStream where
  durable : List Char
  pending : List Char
  deriving DecidableEq, Repr

/-- Everything written to the stream so far, flushed or not. -/
def FileStream.content (stream : FileStream) : List Char :=
  stream.durable ++ stream.pending

/-- The call `vsnprintf(buff, n, frmt, args)`, where `text` is the full
expansion of `frmt` with `args`.  The first component is what the call stores
at the start of `buff` (at most `n - 1` characters of `text` and a `NUL`), the
second is the returned `int`: the length of the full expansion, or a negative
value when that length is not representable. -/
def vsnprintf (n : Nat) (text : List Char) : List Char × Int :=
  (if n = 0 then [] else text.take (n - 1) ++ [NUL],
   if text.length < 2 ^ 31 then (text.length : Int) else -1)

/-- Conversion of an `int` to `size_t` (64 bits), as in `size = vsnprintf(...)`. -/
def toSizeT (r : Int) : Nat :=
  (r % 2 ^ 64).toNat

/-- The call `fwrite(ptr, size, nmemb, stream)`, where `object` is the
initialised content of the array that `ptr` points to.  The result is `none`
when the call reads more than the array holds (undefined behaviour in C). -/
def fwrite (object : List Char) (size nmemb : Nat) (stream : FileStream) : Option FileStream :=
  if size * nmemb ≤ object.length then
    some { stream with pending := stream.pending ++ object.take (size * nmemb) }
  else none

/-- The call `fflush(stream)`. -/
def fflush (stream : FileStream) : FileStream :=
  { durable := stream.durable ++ stream.pending, pending := [] }

/-! ## The loggers of `reporting.c`

The global `verbosity` and the stream `stderr` are passed explicitly; `text`
is the expansion of the format string with the variadic arguments. -/

namespace Reporting

/-- The macro `#define BUFLEN 1024`. -/
def BUFLEN : Nat := 1024

/-- The function `void log_info(const char* frmt, ...)`. -/
def log_info (verbosity : Nat) (text : List Char) (stderr : FileStream) : Option FileStream :=
  if verbosity ≥ 2 then
    let buff := (vsnprintf BUFLEN text).1
    let size := toSizeT (vsnprintf BUFLEN text).2
    (fwrite (cstr "INFO   : ") 9 1 stderr).bind fun s1 =>
    (fwrite buff size 1 s1).bind fun s2 =>
    (fwrite (cstr "\n") 1 1 s2).bind fun s3 =>
    some (fflush s3)
  else some stderr

/-- The function `void log_warn(const char* frmt, ...)`. -/
def log_warn (verbosity : Nat) (text : List Char) (stderr : FileStream) : Option FileStream :=
  if verbosity ≥ 1 then
    let buff := (vsnprintf BUFLEN text).1
    let size := toSizeT (vsnprintf BUFLEN text).2
    (fwrite (cstr "WARNING: ") 9 1 stderr).bind fun s1 =>
    (fwrite buff size 1 s1).bind fun s2 =>
    (fwrite (cstr "\n") 1 1 s2).bind fun s3 =>
    some (fflush s3)
  else some stderr

/-- The function `void log_error(const char* frmt, ...)`; it does not read
`verbosity`, which is kept as an argument for uniformity. -/
def log_error (_verbosity : Nat) (text : List Char) (stderr : FileStream) : Option FileStream :=
  let buff := (vsnprintf BUFLEN text).1
  let size := toSizeT (vsnprintf BUFLEN text).2
  (fwrite (cstr "ERROR  : ") 9 1 stderr).bind fun s1 =>
  (fwrite buff size 1 s1).bind fun s2 =>
  (fwrite (cstr "\n") 1 1 s2).bind fun s3 =>
  some (fflush s3)

/-- The function `void log_debug(const char* frmt, ...)`. -/
def log_debug (verbosity : Nat) (text : List Char) (stderr : FileStream) : Option FileStream :=
  if verbosity ≥ 3 then
    let buff := (vsnprintf BUFLEN text).1
    let size := toSizeT (vsnprintf BUFLEN text).2
    (fwrite (cstr "DEBUG  : ") 9 1 stderr).bind fun s1 =>
    (fwrite buff size 1 s1).bind fun s2 =>
    (fwrite (cstr "\n") 1 1 s2).bind fun s3 =>
    some (fflush s3)
  else some stderr

end Reporting

/-! ## Vocabulary of the logger properties -/

/-- One framed line: severity tag, message, line terminator. -/
def framedLine (tag : String) (text : List Char) : List Char :=
  tag.data ++ text ++ [NEWLINE]

/-- The stream after `bytes` have been written to it and it has been flushed. -/
def FileStream.flushedWith (stream : FileStream) (bytes : List Char) : FileStream :=
  { durable := stream.durable ++ stream.pending ++ bytes, pending := [] }

/-- What the first `BUFLEN` bytes of `buff` hold after `vsnprintf` stored a
text that does not fit: the first `BUFLEN - 1` characters and a `NUL`. -/
def truncated (text : List Char) : List Char :=
  text.take (Reporting.BUFLEN - 1) ++ [NUL]

/-- The statements that every logger executes once its test has passed, for
the severity tag `tag`. -/
def emitBody (tag : String) (text : List Char) (stderr : FileStream) : Option FileStream :=
  (fwrite (cstr tag) 9 1 stderr).bind fun s1 =>
  (fwrite (vsnprintf Reporting.BUFLEN text).1 (toSizeT (vsnprintf Reporting.BUFLEN text).2) 1
    s1).bind fun s2 =>
  (fwrite (cstr "\n") 1 1 s2).bind fun s3 =>
  some (fflush s3)

/-- The four channels. -/
inductive Channel where
  | error
  | warn
  | info
  | debug
  deriving DecidableEq, Repr

/-- The logger function of a channel. -/
def Channel.log : Channel → Nat → List Char → FileStream → Option FileStream
  | .error => Reporting.log_error
  | .warn => Reporting.log_warn
  | .info => Reporting.log_info
  | .debug => Reporting.log_debug

/-- The verbosity from which the logger of a channel is not suppressed, as
tested by its `if (verbosity >= ...)`; `log_error` has no test. -/
def Channel.threshold : Channel → Nat
  | .error => 0
  | .warn => 1
  | .info => 2
  | .debug => 3

/-- The severity tag that the logger of a channel writes first. -/
def Channel.tag : Channel → String
  | .error => "ERROR  : "
  | .warn => "WARNING: "
  | .info => "INFO   : "
  | .debug => "DEBUG  : "

/-- A sequence of logger calls, each a channel and a formatted message, made
one after the other at one verbosity. -/
def runCalls (verbosity : Nat) : List (Channel × List Char) → FileStream → Option FileStream
  | [], stream => some stream
  | call :: rest, stream =>
    (call.1.log verbosity call.2 stream).bind (runCalls verbosity rest)

/-- The lines expected from a sequence of calls at a verbosity: one framed
line for each call whose channel is not suppressed, in the order of the calls. -/
def expectedOutput (verbosity : Nat) (calls : List (Channel × List Char)) : List Char :=
  ((calls.filter fun call => decide (call.1.threshold ≤ verbosity)).map
    fun call => framedLine call.1.tag call.2).flatten

/-- The number of complete lines in a piece of output. -/
def lineCount (bytes : List Char) : Nat :=
  bytes.count NEWLINE

/-! ## `log_ioaddr` of `reporting.c`

`SCIQuery` is a call into the SISCI library; what it answers for a segment is
a parameter.  A segment handle (`sci_local_segment_t`) is a number. -/

/-- What `SCIQuery(SCI_Q_LOCAL_SEGMENT, &query, 0, &err)` leaves behind: the
status stored in `err` and the value stored in `query.data.ioaddr`. -/
structure QueryAnswer where
  err : Nat
  ioaddr : Nat
  deriving DecidableEq, Repr

/-- The state that `log_ioaddr` acts on: the stream `stderr` and the segments
for which `SCIQuery` has been called so far. -/
structure Process where
  stderr : FileStream
  queried : List Nat
  deriving DecidableEq, Repr

/-- The expansion of the conversion `%08lx` for an `unsigned long` (64 bits):
lower-case hexadecimal digits, padded with zeros on the left to 8 characters. -/
def formatHex08 (value : Nat) : List Char :=
  let digits := Nat.toDigits 16 (value % 2 ^ 64)
  List.replicate (8 - digits.length) (Char.ofNat 48) ++ digits

namespace Reporting

/-- The function `void log_ioaddr(sci_local_segment_t segment)`. -/
def log_ioaddr (hdr : SisciHeader) (SCIQuery : Nat → QueryAnswer) (verbosity : Nat)
    (segment : Nat) (proc : Process) : Option Process :=
  if verbosity ≥ 3 then
    let query := SCIQuery segment
    let queried := proc.queried ++ [segment]
    if query.err ≠ hdr SCI_ERR_OK then
      (SCIGetErrorString hdr query.err).bind fun msg =>
      (log_error verbosity ("Failed to query local segment: ".data ++ msg.data)
        proc.stderr).bind fun stderr =>
      some { stderr := stderr, queried := queried }
    else
      (log_debug verbosity ("Local segment has IO addr: 0x".data ++ formatHex08 query.ioaddr)
        proc.stderr).bind fun stderr =>
      some { stderr := stderr, queried := queried }
  else some proc

end Reporting

/-! ## The directional copies declared in `gpu.h`

Only the declarations of `gpu_memcpy_remote_to_local` and
`gpu_memcpy_local_to_remote` are among the sources.  A region of memory is the
list of its bytes. -/

/-- The completion outcome of a directional copy: the number of bytes
transferred together with the destination region after the copy, or the status
code of the failure. -/
inductive TransferOutcome where
  | transferred (bytes : Nat) (destination : List Nat)
  | failed (code : Nat)
  deriving DecidableEq, Repr

/-- The first `len` bytes of a region set to zero, the rest kept. -/
def zeroFill (len : Nat) (region : List Nat) : List Nat :=
  List.replicate (min len region.length) 0 ++ region.drop len

/-- Modelled from the spec: the body of `gpu_memcpy_remote_to_local`, which
`gpu.h` only declares.  After section 4.2, `copyRemoteToLocal`: when `clear`
is set the destination device buffer is zero-filled before the copy is issued,
and either the full length lands or the call reports failure.  The argument
`fabric` is what the fabric reports for the transfer: `none` when it completes,
`some code` when it fails with that status code. -/
def gpu_memcpy_remote_to_local (fabric : Option Nat) (gpu_ptr remote_ptr : List Nat)
    (len : Nat) (clear : Bool) : TransferOutcome :=
  let destination := if clear then zeroFill len gpu_ptr else gpu_ptr
  match fabric with
  | some code => .failed code
  | none => .transferred len (remote_ptr.take len ++ destination.drop len)

/-- Modelled from the spec: the body of `gpu_memcpy_local_to_remote`, which
`gpu.h` only declares.  After section 4.2, `copyLocalToRemote`: the mirror
direction of `copyRemoteToLocal`; whether `clear` zero-fills the remote side is
fabric-dependent, which is the argument `fabricClears`. -/
def gpu_memcpy_local_to_remote (fabric : Option Nat) (fabricClears : Bool)
    (gpu_ptr remote_ptr : List Nat) (len : Nat) (clear : Bool) : TransferOutcome :=
  let destination := if clear && fabricClears then zeroFill len remote_ptr else remote_ptr
  match fabric with
  | some code => .failed code
  | none => .transferred len (gpu_ptr.take len ++ destination.drop len)

/-! ## Logger calls of several threads

Each call into the stdio library is one atomic step on the stream; between two
steps of a thread the steps of other threads may run. -/

/-- A sample assignment of pairwise distinct values to the constants (the
position of the constant in the enumeration), used to instantiate the
theorems at a concrete input. -/
def sampleHeader : SisciHeader
  | SCI_ERR_OK => 0
  | SCI_ERR_BUSY => 1
  | SCI_ERR_FLAG_NOT_IMPLEMENTED => 2
  | SCI_ERR_ILLEGAL_FLAG => 3
  | SCI_ERR_NOSPC => 4
  | SCI_ERR_API_NOSPC => 5
  | SCI_ERR_HW_NOSPC => 6
  | SCI_ERR_NOT_IMPLEMENTED => 7
  | SCI_ERR_ILLEGAL_ADAPTERNO => 8
  | SCI_ERR_NO_SUCH_ADAPTERNO => 9
  | SCI_ERR_TIMEOUT => 10
  | SCI_ERR_OUT_OF_RANGE => 11
  | SCI_ERR_NO_SUCH_SEGMENT => 12
  | SCI_ERR_ILLEGAL_NODEID => 13
  | SCI_ERR_CONNECTION_REFUSED => 14
  | SCI_ERR_SEGMENT_NOT_CONNECTED => 15
  | SCI_ERR_SIZE_ALIGNMENT => 16
  | SCI_ERR_OFFSET_ALIGNMENT => 17
  | SCI_ERR_ILLEGAL_PARAMETER => 18
  | SCI_ERR_MAX_ENTRIES => 19
  | SCI_ERR_SEGMENT_NOT_PREPARED => 20
  | SCI_ERR_ILLEGAL_ADDRESS => 21
  | SCI_ERR_ILLEGAL_OPERATION => 22
  | SCI_ERR_ILLEGAL_QUERY => 23
  | SCI_ERR_SEGMENTID_USED => 24
  | SCI_ERR_SYSTEM => 25
  | SCI_ERR_CANCELLED => 26
  | SCI_ERR_NOT_CONNECTED => 27
  | SCI_ERR_NOT_AVAILABLE => 28
  | SCI_ERR_INCONSISTENT_VERSIONS => 29
  | SCI_ERR_COND_INT_RACE_PROBLEM => 30
  | SCI_ERR_OVERFLOW => 31
  | SCI_ERR_NOT_INITIALIZED => 32
  | SCI_ERR_ACCESS => 33
  | SCI_ERR_NOT_SUPPORTED => 34
  | SCI_ERR_DEPRECATED => 35
  | SCI_ERR_NO_SUCH_NODEID => 36
  | SCI_ERR_NODE_NOT_RESPONDING => 37
  | SCI_ERR_NO_REMOTE_LINK_ACCESS => 38
  | SCI_ERR_NO_LINK_ACCESS => 39
  | SCI_ERR_TRANSFER_FAILED => 40
  | SCI_ERR_EWOULD_BLOCK => 41
  | SCI_ERR_SEMAPHORE_COUNT_EXCEEDED => 42
  | SCI_ERR_IRQL_ILLEGAL => 43
  | SCI_ERR_REMOTE_BUSY => 44
  | SCI_ERR_LOCAL_BUSY => 45
  | SCI_ERR_ALL_BUSY => 46

/-- A sample `SCIQuery`: segment 0 has the IO address 4096, every other
segment is reported as missing with the value that the sample header gives
`SCI_ERR_NO_SUCH_SEGMENT`. -/
def sampleQuery (segment : Nat) : QueryAnswer :=
  if segment = 0 then { err := sampleHeader SCI_ERR_OK, ioaddr := 4096 }
  else { err := sampleHeader SCI_ERR_NO_SUCH_SEGMENT, ioaddr := 0 }

/-- A sample `SCIQuery` that reports every segment as busy, with the value
that the sample header gives `SCI_ERR_REMOTE_BUSY`. -/
def busyQuery (_segment : Nat) : QueryAnswer :=
  { err := sampleHeader SCI_ERR_REMOTE_BUSY, ioaddr := 0 }

/-! ## Facts about the scan -/

theorem sampleHeader_distinct : SisciHeader.Distinct sampleHeader := by
  intro a b h
  cases a <;> cases b <;> first | rfl | (exact absurd h (by decide))

theorem scanTable_not_mem (strs : List String) (sentinel : String) (code : Nat) :
    ∀ (codes : List Nat) (idx : Nat), code ∉ codes →
      scanTable strs sentinel code codes idx = some sentinel := by
  intro codes
  induction codes with
  | nil => intro idx _; rfl
  | cons c rest ih =>
    intro idx hmem
    have hc : c ≠ code := fun h => hmem (by simp [h])
    have hrest : code ∉ rest := fun h => hmem (by simp [h])
    simp [scanTable, hc, ih (idx + 1) hrest]

theorem scanTable_at (strs : List String) (sentinel : String) :
    ∀ (codes : List Nat) (idx i : Nat) (code : Nat), codes.Nodup → codes[i]? = some code →
      scanTable strs sentinel code codes idx = strs[idx + i]? := by
  intro codes
  induction codes with
  | nil => intro idx i code _ h; simp at h
  | cons c rest ih =>
    intro idx i code hnd hget
    cases i with
    | zero =>
      have hc : c = code := by simpa using hget
      simp [scanTable, hc]
    | succ j =>
      have hget2 : rest[j]? = some code := by simpa using hget
      have hmem : code ∈ rest := List.getElem?_mem hget2
      have hnd2 := List.nodup_cons.mp hnd
      have hc : c ≠ code := fun h => hnd2.1 (h ▸ hmem)
      have hidx : idx + (j + 1) = idx + 1 + j := by omega
      simp [scanTable, hc, hidx, ih (idx + 1) j code hnd2.2 hget2]

theorem scanTable_sentinel_irrelevant (strs : List String) (s1 s2 : String) (code : Nat) :
    ∀ (codes : List Nat) (idx : Nat), code ∈ codes →
      scanTable strs s1 code codes idx = scanTable strs s2 code codes idx := by
  intro codes
  induction codes with
  | nil => intro idx h; simp at h
  | cons c rest ih =>
    intro idx hmem
    by_cases hc : c = code
    · simp [scanTable, hc]
    · have hrest : code ∈ rest := by
        rcases List.mem_cons.mp hmem with h | h
        · exact absurd h.symm hc
        · exact h
      simp [scanTable, hc, ih (idx + 1) hrest]

theorem listedCodes_nodup : listedCodes.Nodup := by decide

theorem listedCodes_map_nodup (hdr : SisciHeader) (hd : hdr.Distinct) :
    (listedCodes.map hdr).Nodup :=
  List.Nodup.map hd listedCodes_nodup

theorem listedCodes_length : listedCodes.length = 47 := by decide

theorem error_strings_length : Reporting.error_strings.length = 44 := by decide

theorem error_strings_same : Errstr.error_strings = Reporting.error_strings := by decide

theorem error_strings_nonempty :
    ∀ i, i < 44 → ∃ msg, Reporting.error_strings[i]? = some msg ∧ msg ≠ "" := by decide

theorem reporting_lookup_at (hdr : SisciHeader) (hd : hdr.Distinct) (i code : Nat)
    (h : (Reporting.error_codes hdr)[i]? = some code) :
    Reporting.SCIGetErrorString hdr code = Reporting.error_strings[i]? := by
  have := scanTable_at Reporting.error_strings "Unknown error" (Reporting.error_codes hdr) 0 i
    code (listedCodes_map_nodup hdr hd) h
  simpa [Reporting.SCIGetErrorString] using this

theorem errstr_lookup_at (hdr : SisciHeader) (hd : hdr.Distinct) (i code : Nat)
    (h : (Errstr.error_codes hdr)[i]? = some code) :
    Errstr.GetErrorString hdr code = Errstr.error_strings[i]? := by
  have := scanTable_at Errstr.error_strings "Undocumented error" (Errstr.error_codes hdr) 0 i
    code (listedCodes_map_nodup hdr hd) h
  simpa [Errstr.GetErrorString] using this

theorem error_codes_at (hdr : SisciHeader) (i : Nat) (hi : i < 47) :
    ∃ e, listedCodes[i]? = some e ∧ (Reporting.error_codes hdr)[i]? = some (hdr e) := by
  have hlen : i < listedCodes.length := by rw [listedCodes_length]; exact hi
  refine ⟨listedCodes[i], List.getElem?_eq_getElem hlen, ?_⟩
  simp [Reporting.error_codes, List.getElem?_map, List.getElem?_eq_getElem hlen]

theorem scan_none_iff (hdr : SisciHeader) (hd : hdr.Distinct) (sentinel : String) (code : Nat) :
    scanTable Reporting.error_strings sentinel code (listedCodes.map hdr) 0 = none ↔
      code = hdr SCI_ERR_REMOTE_BUSY ∨ code = hdr SCI_ERR_LOCAL_BUSY ∨
        code = hdr SCI_ERR_ALL_BUSY := by
  have hnd := listedCodes_map_nodup hdr hd
  constructor
  · intro hnone
    by_cases hmem : code ∈ listedCodes.map hdr
    · obtain ⟨i, hi⟩ := List.getElem?_of_mem hmem
      have hscan := scanTable_at Reporting.error_strings sentinel _ 0 i code hnd hi
      rw [hnone, Nat.zero_add] at hscan
      have hlt : i < 47 := by
        have := (List.getElem?_eq_some.mp hi).1
        simpa [listedCodes_length] using this
      have hge : 44 ≤ i := by
        by_contra hlt44
        obtain ⟨msg, hmsg, _⟩ := error_strings_nonempty i (by omega)
        rw [hmsg] at hscan
        cases hscan
      have h44 : (listedCodes.map hdr)[44]? = some (hdr SCI_ERR_REMOTE_BUSY) := rfl
      have h45 : (listedCodes.map hdr)[45]? = some (hdr SCI_ERR_LOCAL_BUSY) := rfl
      have h46 : (listedCodes.map hdr)[46]? = some (hdr SCI_ERR_ALL_BUSY) := rfl
      have hcases : i = 44 ∨ i = 45 ∨ i = 46 := by omega
      rcases hcases with h | h | h <;> subst h
      · rw [h44] at hi; exact Or.inl (Option.some.inj hi).symm
      · rw [h45] at hi; exact Or.inr (Or.inl (Option.some.inj hi).symm)
      · rw [h46] at hi; exact Or.inr (Or.inr (Option.some.inj hi).symm)
    · rw [scanTable_not_mem _ _ _ _ _ hmem] at hnone
      cases hnone
  · intro h
    rcases h with h | h | h <;> subst h
    · exact (scanTable_at Reporting.error_strings sentinel _ 0 44 _ hnd rfl).trans rfl
    · exact (scanTable_at Reporting.error_strings sentinel _ 0 45 _ hnd rfl).trans rfl
    · exact (scanTable_at Reporting.error_strings sentinel _ 0 46 _ hnd rfl).trans rfl

theorem scan_some_nonempty (hdr : SisciHeader) (hd : hdr.Distinct) (sentinel : String)
    (hs : sentinel ≠ "") (code : Nat) (msg : String)
    (h : scanTable Reporting.error_strings sentinel code (listedCodes.map hdr) 0 = some msg) :
    msg ≠ "" := by
  have hnd := listedCodes_map_nodup hdr hd
  by_cases hmem : code ∈ listedCodes.map hdr
  · obtain ⟨i, hi⟩ := List.getElem?_of_mem hmem
    have hscan := scanTable_at Reporting.error_strings sentinel _ 0 i code hnd hi
    rw [h, Nat.zero_add] at hscan
    have hlt : i < 44 := by
      have := (List.getElem?_eq_some.mp hscan.symm).1
      simpa [error_strings_length] using this
    obtain ⟨m, hm, hne⟩ := error_strings_nonempty i hlt
    rw [hm] at hscan
    cases hscan
    exact hne
  · rw [scanTable_not_mem _ _ _ _ _ hmem] at h
    cases h
    exact hs

theorem scanTable_first_match (strs : List String) (sentinel : String) :
    ∀ (codes : List Nat) (idx i code : Nat), codes[i]? = some code →
      ∃ j, j ≤ i ∧ scanTable strs sentinel code codes idx = strs[idx + j]? := by
  intro codes
  induction codes with
  | nil => intro idx i code h; simp at h
  | cons c rest ih =>
    intro idx i code hget
    by_cases hc : c = code
    · exact ⟨0, Nat.zero_le _, by simp [scanTable, hc]⟩
    · cases i with
      | zero =>
        have : c = code := by simpa using hget
        exact absurd this hc
      | succ i =>
        have hget2 : rest[i]? = some code := by simpa using hget
        obtain ⟨j, hj, hscan⟩ := ih (idx + 1) i code hget2
        refine ⟨j + 1, by omega, ?_⟩
        have hidx : idx + (j + 1) = idx + 1 + j := by omega
        simp [scanTable, hc, hidx, hscan]

/-! ## The error translation tables: claims -/

/-- C1 (the code departs from the claim). With pairwise distinct constants,
every position `i < 44` of `error_codes` is looked up to the message stored at
position `i` of `error_strings`, by `SCIGetErrorString` and by
`GetErrorString`; at the positions 44, 45 and 46 of `error_codes`
`error_strings` stores no message and both lookups read past its end. -/
theorem lookup_pairs_positions (hdr : SisciHeader) (hd : hdr.Distinct) :
    (∀ i, i < 44 → ∃ code msg,
        (Reporting.error_codes hdr)[i]? = some code ∧
        Reporting.error_strings[i]? = some msg ∧
        Reporting.SCIGetErrorString hdr code = some msg ∧
        (Errstr.error_codes hdr)[i]? = some code ∧
        Errstr.error_strings[i]? = some msg ∧
        Errstr.GetErrorString hdr code = some msg) ∧
    (∀ i, 44 ≤ i → i < 47 → ∃ code,
        (Reporting.error_codes hdr)[i]? = some code ∧
        Reporting.error_strings[i]? = none ∧
        Reporting.SCIGetErrorString hdr code = none ∧
        (Errstr.error_codes hdr)[i]? = some code ∧
        Errstr.error_strings[i]? = none ∧
        Errstr.GetErrorString hdr code = none) := by
  constructor
  · intro i hi
    obtain ⟨e, _, hcode⟩ := error_codes_at hdr i (by omega)
    obtain ⟨msg, hmsg, _⟩ := error_strings_nonempty i hi
    have hmsg2 : Errstr.error_strings[i]? = some msg := by rw [error_strings_same]; exact hmsg
    refine ⟨hdr e, msg, hcode, hmsg, ?_, hcode, hmsg2, ?_⟩
    · rw [reporting_lookup_at hdr hd i _ hcode, hmsg]
    · rw [errstr_lookup_at hdr hd i _ hcode, hmsg2]
  · intro i hlo hhi
    obtain ⟨e, _, hcode⟩ := error_codes_at hdr i hhi
    have hnone : Reporting.error_strings[i]? = none :=
      List.getElem?_eq_none (by rw [error_strings_length]; exact hlo)
    have hnone2 : Errstr.error_strings[i]? = none := by rw [error_strings_same]; exact hnone
    refine ⟨hdr e, hcode, hnone, ?_, hcode, hnone2, ?_⟩
    · rw [reporting_lookup_at hdr hd i _ hcode, hnone]
    · rw [errstr_lookup_at hdr hd i _ hcode, hnone2]

/-- Instance of `lookup_pairs_positions` at the sample header: position 46
holds the value of `SCI_ERR_ALL_BUSY` and its lookup reads past the end. -/
theorem lookup_pairs_positions_witness :
    sampleHeader.Distinct ∧
      ∃ code, (Reporting.error_codes sampleHeader)[46]? = some code ∧
        Reporting.error_strings[46]? = none ∧
        Reporting.SCIGetErrorString sampleHeader code = none ∧
        (Errstr.error_codes sampleHeader)[46]? = some code ∧
        Errstr.error_strings[46]? = none ∧
        Errstr.GetErrorString sampleHeader code = none :=
  ⟨sampleHeader_distinct,
    (lookup_pairs_positions sampleHeader sampleHeader_distinct).2 46 (by decide) (by decide)⟩

/-- C2 (the code departs from the claim). With pairwise distinct constants,
the lookups read `error_strings` past its end exactly for the codes
`SCI_ERR_REMOTE_BUSY`, `SCI_ERR_LOCAL_BUSY` and `SCI_ERR_ALL_BUSY`, which the
scan matches at the indices 44, 45 and 46 of a 44-entry array; for every
other code the result is a non-empty string. -/
theorem lookup_out_of_bounds_iff (hdr : SisciHeader) (hd : hdr.Distinct) (code : Nat) :
    (Reporting.SCIGetErrorString hdr code = none ↔
      code = hdr SCI_ERR_REMOTE_BUSY ∨ code = hdr SCI_ERR_LOCAL_BUSY ∨
        code = hdr SCI_ERR_ALL_BUSY) ∧
    (Errstr.GetErrorString hdr code = none ↔
      code = hdr SCI_ERR_REMOTE_BUSY ∨ code = hdr SCI_ERR_LOCAL_BUSY ∨
        code = hdr SCI_ERR_ALL_BUSY) ∧
    (∀ msg, Reporting.SCIGetErrorString hdr code = some msg → msg ≠ "") ∧
    (∀ msg, Errstr.GetErrorString hdr code = some msg → msg ≠ "") := by
  refine ⟨scan_none_iff hdr hd _ code, ?_, ?_, ?_⟩
  · have := scan_none_iff hdr hd "Undocumented error" code
    simpa [Errstr.GetErrorString, Errstr.error_codes, error_strings_same] using this
  · intro msg h
    exact scan_some_nonempty hdr hd "Unknown error" (by decide) code msg h
  · intro msg h
    refine scan_some_nonempty hdr hd "Undocumented error" (by decide) code msg ?_
    simpa [Errstr.GetErrorString, Errstr.error_codes, error_strings_same] using h

/-- Instance of `lookup_out_of_bounds_iff` at the sample header, where
`SCI_ERR_REMOTE_BUSY` is 44: the lookup of 44 reads past the end. -/
theorem lookup_out_of_bounds_iff_witness :
    sampleHeader.Distinct ∧ Reporting.SCIGetErrorString sampleHeader 44 = none :=
  ⟨sampleHeader_distinct,
    (lookup_out_of_bounds_iff sampleHeader sampleHeader_distinct 44).1.mpr (Or.inl rfl)⟩

/-- C3 (the code departs from the claim). With pairwise distinct constants,
`SCIGetErrorString` gives "Illegal interrupt line" for
`SCI_ERR_TRANSFER_FAILED`, "Transfer failed" for `SCI_ERR_NO_LINK_ACCESS` and
"Remote link is not operational" for `SCI_ERR_NODE_NOT_RESPONDING`; for
`SCI_ERR_TIMEOUT` and `SCI_ERR_CANCELLED` it gives "Operation timed out" and
"Operation cancelled". -/
theorem transfer_failure_messages (hdr : SisciHeader) (hd : hdr.Distinct) :
    Reporting.SCIGetErrorString hdr (hdr SCI_ERR_TRANSFER_FAILED)
      = some "Illegal interrupt line" ∧
    Reporting.SCIGetErrorString hdr (hdr SCI_ERR_NO_LINK_ACCESS)
      = some "Transfer failed" ∧
    Reporting.SCIGetErrorString hdr (hdr SCI_ERR_NODE_NOT_RESPONDING)
      = some "Remote link is not operational" ∧
    Reporting.SCIGetErrorString hdr (hdr SCI_ERR_TIMEOUT)
      = some "Operation timed out" ∧
    Reporting.SCIGetErrorString hdr (hdr SCI_ERR_CANCELLED)
      = some "Operation cancelled" :=
  ⟨(reporting_lookup_at hdr hd 40 _ rfl).trans rfl,
   (reporting_lookup_at hdr hd 39 _ rfl).trans rfl,
   (reporting_lookup_at hdr hd 37 _ rfl).trans rfl,
   (reporting_lookup_at hdr hd 10 _ rfl).trans rfl,
   (reporting_lookup_at hdr hd 26 _ rfl).trans rfl⟩

/-- Instance of `transfer_failure_messages` at the sample header, where
`SCI_ERR_TRANSFER_FAILED` is 40. -/
theorem transfer_failure_messages_witness :
    sampleHeader.Distinct ∧
      Reporting.SCIGetErrorString sampleHeader 40 = some "Illegal interrupt line" :=
  ⟨sampleHeader_distinct, (transfer_failure_messages sampleHeader sampleHeader_distinct).1⟩

/-- C4. For every code that equals no entry of `error_codes`,
`SCIGetErrorString` returns the sentinel "Unknown error", whatever the code
and whatever the values of the constants. -/
theorem unmatched_code_unknown_error (hdr : SisciHeader) (code : Nat)
    (h : code ∉ Reporting.error_codes hdr) :
    Reporting.SCIGetErrorString hdr code = some "Unknown error" :=
  scanTable_not_mem Reporting.error_strings "Unknown error" code _ 0 h

/-- Instance of `unmatched_code_unknown_error`: 4242 is no entry of the table
under the sample header. -/
theorem unmatched_code_unknown_error_witness :
    4242 ∉ Reporting.error_codes sampleHeader ∧
      Reporting.SCIGetErrorString sampleHeader 4242 = some "Unknown error" :=
  ⟨by decide, unmatched_code_unknown_error sampleHeader 4242 (by decide)⟩

/-- C9 (refutation of the claim as stated). Whatever the values of the
constants, there is no code present in the table for which `SCIGetErrorString`
and `GetErrorString` both return a message and the two messages differ. -/
theorem no_code_worded_differently :
    ¬ ∃ (hdr : SisciHeader) (code : Nat) (m1 m2 : String),
        code ∈ Reporting.error_codes hdr ∧
        Reporting.SCIGetErrorString hdr code = some m1 ∧
        Errstr.GetErrorString hdr code = some m2 ∧ m1 ≠ m2 := by
  rintro ⟨hdr, code, m1, m2, hmem, h1, h2, hne⟩
  apply hne
  have hsame := scanTable_sentinel_irrelevant Reporting.error_strings "Unknown error"
    "Undocumented error" code (listedCodes.map hdr) 0 hmem
  have h1' : scanTable Reporting.error_strings "Unknown error" code (listedCodes.map hdr) 0
      = some m1 := h1
  have h2' : scanTable Reporting.error_strings "Undocumented error" code
      (listedCodes.map hdr) 0 = some m2 := by
    have := h2
    simpa [Errstr.GetErrorString, Errstr.error_codes, error_strings_same] using this
  rw [h1', h2'] at hsame
  exact Option.some.inj hsame

/-- C9 (amended). The two tables are equal entry for entry, codes and
messages, and for every code listed at one of the positions 0 to 43 of
`error_codes`, the positions for which `error_strings` holds a message,
`SCIGetErrorString` and `GetErrorString` return the same message. -/
theorem tables_agree (hdr : SisciHeader) :
    Errstr.error_codes hdr = Reporting.error_codes hdr ∧
    Errstr.error_strings = Reporting.error_strings ∧
    ∀ (i code : Nat), i < 44 → (Reporting.error_codes hdr)[i]? = some code →
      ∃ msg, Reporting.SCIGetErrorString hdr code = some msg ∧
        Errstr.GetErrorString hdr code = some msg := by
  refine ⟨rfl, error_strings_same, ?_⟩
  intro i code hi hcode
  obtain ⟨j, hj, hscan⟩ :=
    scanTable_first_match Reporting.error_strings "Unknown error" _ 0 i code hcode
  have hmem : code ∈ Reporting.error_codes hdr := List.getElem?_mem hcode
  have hsame := scanTable_sentinel_irrelevant Reporting.error_strings "Unknown error"
    "Undocumented error" code (listedCodes.map hdr) 0 hmem
  obtain ⟨msg, hmsg, _⟩ := error_strings_nonempty j (by omega)
  rw [Nat.zero_add, hmsg] at hscan
  refine ⟨msg, hscan, ?_⟩
  have hget : Errstr.GetErrorString hdr code
      = scanTable Reporting.error_strings "Undocumented error" code (listedCodes.map hdr) 0 := by
    simp [Errstr.GetErrorString, Errstr.error_codes, error_strings_same]
  rw [hget, ← hsame]
  exact hscan

/-- Instance of `tables_agree`: position 10 of the table holds 10, the value
of `SCI_ERR_TIMEOUT` under the sample header, and both lookups return the
message "Operation timed out" for it. -/
theorem tables_agree_witness :
    10 < 44 ∧ (Reporting.error_codes sampleHeader)[10]? = some 10 ∧
      ∃ msg, Reporting.SCIGetErrorString sampleHeader 10 = some msg ∧
        Errstr.GetErrorString sampleHeader 10 = some msg :=
  ⟨by decide, by decide, (tables_agree sampleHeader).2.2 10 10 (by decide) (by decide)⟩

/-- C10. No constant is listed at two positions of the initialiser shared by
the two `error_codes` arrays, so with pairwise distinct constants neither
array holds a value twice and every entry is the first match of its own
value in the scan. -/
theorem error_codes_unique (hdr : SisciHeader) (hd : hdr.Distinct) :
    listedCodes.Nodup ∧
    (Reporting.error_codes hdr).Nodup ∧
    (Errstr.error_codes hdr).Nodup ∧
    ∀ (i j code : Nat), (Reporting.error_codes hdr)[i]? = some code →
      (Reporting.error_codes hdr)[j]? = some code → i = j := by
  have hnd := listedCodes_map_nodup hdr hd
  refine ⟨listedCodes_nodup, hnd, hnd, ?_⟩
  intro i j code hi hj
  obtain ⟨hi1, hi2⟩ := List.getElem?_eq_some.mp hi
  obtain ⟨hj1, hj2⟩ := List.getElem?_eq_some.mp hj
  exact (List.Nodup.getElem_inj_iff hnd).mp (hi2.trans hj2.symm)

/-- Instance of `error_codes_unique` at the sample header. -/
theorem error_codes_unique_witness :
    sampleHeader.Distinct ∧ (Reporting.error_codes sampleHeader).Nodup :=
  ⟨sampleHeader_distinct, (error_codes_unique sampleHeader sampleHeader_distinct).2.1⟩

/-! ## Facts about the loggers -/

theorem log_error_eq (v : Nat) (text : List Char) (s : FileStream) :
    Reporting.log_error v text s = emitBody "ERROR  : " text s := rfl

theorem log_warn_eq (v : Nat) (text : List Char) (s : FileStream) :
    Reporting.log_warn v text s = if 1 ≤ v then emitBody "WARNING: " text s else some s := rfl

theorem log_info_eq (v : Nat) (text : List Char) (s : FileStream) :
    Reporting.log_info v text s = if 2 ≤ v then emitBody "INFO   : " text s else some s := rfl

theorem log_debug_eq (v : Nat) (text : List Char) (s : FileStream) :
    Reporting.log_debug v text s = if 3 ≤ v then emitBody "DEBUG  : " text s else some s := rfl

theorem toSizeT_vsnprintf_small (n : Nat) (text : List Char) (h : text.length < 2 ^ 31) :
    toSizeT (vsnprintf n text).2 = text.length := by
  simp only [vsnprintf, toSizeT, if_pos h]
  have hlt : (text.length : Int) < 2 ^ 64 := by
    have : (text.length : Int) < 2 ^ 31 := by exact_mod_cast h
    omega
  rw [Int.emod_eq_of_lt (Int.ofNat_nonneg _) hlt]
  simp

theorem toSizeT_vsnprintf_large (n : Nat) (text : List Char) (h : ¬ text.length < 2 ^ 31) :
    toSizeT (vsnprintf n text).2 = 2 ^ 64 - 1 := by
  simp only [vsnprintf, toSizeT, if_neg h]
  decide

theorem vsnprintf_stored (text : List Char) :
    (vsnprintf Reporting.BUFLEN text).1 = text.take 1023 ++ [NUL] := by
  show (if (1024 : Nat) = 0 then [] else text.take (1024 - 1) ++ [NUL]) = _
  rw [if_neg (by decide)]

theorem fwrite_tag (tag : String) (htag : tag.data.length = 9) (s : FileStream) :
    fwrite (cstr tag) 9 1 s = some { s with pending := s.pending ++ tag.data } := by
  have hlen : 9 * 1 ≤ (cstr tag).length := by simp [cstr, htag]
  have htake : (cstr tag).take (9 * 1) = tag.data := by
    unfold cstr
    rw [Nat.mul_one, ← htag, List.take_left]
  rw [fwrite, if_pos hlen, htake]

theorem fwrite_newline (s : FileStream) :
    fwrite (cstr "\n") 1 1 s = some { s with pending := s.pending ++ [NEWLINE] } := by
  simp [fwrite, cstr, NEWLINE]

theorem fwrite_buff_fits (text : List Char) (s : FileStream)
    (h : text.length < Reporting.BUFLEN) :
    fwrite (vsnprintf Reporting.BUFLEN text).1 (toSizeT (vsnprintf Reporting.BUFLEN text).2) 1 s
      = some { s with pending := s.pending ++ text } := by
  have h1024 : text.length < 1024 := h
  rw [toSizeT_vsnprintf_small _ _ (by omega), vsnprintf_stored]
  have hall : text.take 1023 = text := List.take_of_length_le (by omega)
  rw [hall, fwrite, if_pos (by simp), Nat.mul_one, List.take_left]

theorem fwrite_buff_exact (text : List Char) (s : FileStream)
    (h : text.length = Reporting.BUFLEN) :
    fwrite (vsnprintf Reporting.BUFLEN text).1 (toSizeT (vsnprintf Reporting.BUFLEN text).2) 1 s
      = some { s with pending := s.pending ++ truncated text } := by
  have h1024 : text.length = 1024 := h
  rw [toSizeT_vsnprintf_small _ _ (by omega), vsnprintf_stored]
  have hlen : (text.take 1023 ++ [NUL]).length = text.length := by
    simp [List.length_take]; omega
  rw [fwrite, if_pos (by omega), Nat.mul_one, ← hlen, List.take_length]
  rfl

theorem fwrite_buff_overlong (text : List Char) (s : FileStream)
    (h : Reporting.BUFLEN < text.length) :
    fwrite (vsnprintf Reporting.BUFLEN text).1 (toSizeT (vsnprintf Reporting.BUFLEN text).2) 1 s
      = none := by
  have h1024 : 1024 < text.length := h
  have hlen : (text.take 1023 ++ [NUL]).length = 1024 := by
    simp [List.length_take]; omega
  rw [vsnprintf_stored, fwrite, if_neg]
  rw [hlen, Nat.mul_one]
  by_cases hs : text.length < 2 ^ 31
  · rw [toSizeT_vsnprintf_small _ _ hs]; omega
  · rw [toSizeT_vsnprintf_large _ _ hs]; omega

theorem emitBody_fits (tag : String) (htag : tag.data.length = 9) (text : List Char)
    (s : FileStream) (h : text.length < Reporting.BUFLEN) :
    emitBody tag text s = some (s.flushedWith (framedLine tag text)) := by
  simp [emitBody, fwrite_tag tag htag, fwrite_buff_fits text _ h, fwrite_newline, fflush,
    FileStream.flushedWith, framedLine, List.append_assoc]

theorem emitBody_exact (tag : String) (htag : tag.data.length = 9) (text : List Char)
    (s : FileStream) (h : text.length = Reporting.BUFLEN) :
    emitBody tag text s
      = some (s.flushedWith (tag.data ++ truncated text ++ [NEWLINE])) := by
  simp [emitBody, fwrite_tag tag htag, fwrite_buff_exact text _ h, fwrite_newline, fflush,
    FileStream.flushedWith, List.append_assoc]

theorem emitBody_overlong (tag : String) (htag : tag.data.length = 9) (text : List Char)
    (s : FileStream) (h : Reporting.BUFLEN < text.length) :
    emitBody tag text s = none := by
  simp [emitBody, fwrite_tag tag htag, fwrite_buff_overlong text _ h]

theorem Channel.tag_length (c : Channel) : c.tag.data.length = 9 := by
  cases c <;> rfl

theorem Channel.tag_no_newline (c : Channel) : NEWLINE ∉ c.tag.data := by
  cases c <;> decide

theorem Channel.log_eq (c : Channel) (v : Nat) (text : List Char) (s : FileStream) :
    c.log v text s = if c.threshold ≤ v then emitBody c.tag text s else some s := by
  cases c
  · simp [Channel.log, Channel.threshold, Channel.tag, log_error_eq]
  · simp [Channel.log, Channel.threshold, Channel.tag, log_warn_eq]
  · simp [Channel.log, Channel.threshold, Channel.tag, log_info_eq]
  · simp [Channel.log, Channel.threshold, Channel.tag, log_debug_eq]

theorem flushedWith_content (s : FileStream) (bytes : List Char) :
    (s.flushedWith bytes).content = s.content ++ bytes := by
  simp [FileStream.flushedWith, FileStream.content]

theorem emitBody_returns (tag : String) (htag : tag.data.length = 9) (text : List Char)
    (s after : FileStream) (h : emitBody tag text s = some after) :
    ∃ body, after = s.flushedWith (framedLine tag body) := by
  rcases Nat.lt_trichotomy text.length Reporting.BUFLEN with hlt | heq | hgt
  · rw [emitBody_fits tag htag text s hlt] at h
    exact ⟨text, (Option.some.inj h).symm⟩
  · rw [emitBody_exact tag htag text s heq] at h
    exact ⟨truncated text, (Option.some.inj h).symm⟩
  · rw [emitBody_overlong tag htag text s hgt] at h
    cases h

theorem lineCount_framedLine (tag : String) (text : List Char) (htag : NEWLINE ∉ tag.data)
    (htext : NEWLINE ∉ text) : lineCount (framedLine tag text) = 1 := by
  simp [lineCount, framedLine, List.count_append, List.count_eq_zero_of_not_mem htag,
    List.count_eq_zero_of_not_mem htext]

theorem runCalls_fits (v : Nat) :
    ∀ (calls : List (Channel × List Char)) (s : FileStream),
      (∀ call ∈ calls, call.2.length < Reporting.BUFLEN) →
      ∃ after, runCalls v calls s = some after ∧
        after.content = s.content ++ expectedOutput v calls := by
  intro calls
  induction calls with
  | nil => intro s _; exact ⟨s, rfl, by simp [expectedOutput]⟩
  | cons call rest ih =>
    intro s hfit
    have hcall : call.2.length < Reporting.BUFLEN := hfit call (by simp)
    have hrest : ∀ c ∈ rest, c.2.length < Reporting.BUFLEN :=
      fun c hc => hfit c (by simp [hc])
    by_cases hv : call.1.threshold ≤ v
    · obtain ⟨after, hrun, hcontent⟩ :=
        ih (s.flushedWith (framedLine call.1.tag call.2)) hrest
      refine ⟨after, ?_, ?_⟩
      · simp [runCalls, Channel.log_eq, hv,
          emitBody_fits call.1.tag call.1.tag_length call.2 s hcall, hrun]
      · rw [hcontent, flushedWith_content]
        simp [expectedOutput, List.filter_cons, hv, List.append_assoc]
    · obtain ⟨after, hrun, hcontent⟩ := ih s hrest
      refine ⟨after, ?_, ?_⟩
      · simp [runCalls, Channel.log_eq, hv, hrun]
      · rw [hcontent]
        simp [expectedOutput, List.filter_cons, hv]

theorem lineCount_expectedOutput (v : Nat) :
    ∀ (calls : List (Channel × List Char)), (∀ call ∈ calls, NEWLINE ∉ call.2) →
      lineCount (expectedOutput v calls)
        = (calls.map Prod.fst).countP fun c => decide (c.threshold ≤ v) := by
  intro calls
  induction calls with
  | nil => intro _; rfl
  | cons call rest ih =>
    intro hnl
    have hcall : NEWLINE ∉ call.2 := hnl call (by simp)
    have hrest : ∀ c ∈ rest, NEWLINE ∉ c.2 := fun c hc => hnl c (by simp [hc])
    have ih2 := ih hrest
    have hline := lineCount_framedLine call.1.tag call.2 call.1.tag_no_newline hcall
    simp only [lineCount, expectedOutput] at ih2 hline ⊢
    by_cases hv : call.1.threshold ≤ v
    · simp [List.filter_cons, hv, List.count_append, ih2, hline, List.countP_cons]
      omega
    · simp [List.filter_cons, hv, ih2, List.countP_cons]

theorem expectedOutput_error_only (calls : List (Channel × List Char))
    (hperm : (calls.map Prod.fst).Perm [Channel.error, Channel.warn, Channel.info, Channel.debug]) :
    ∃ e, (Channel.error, e) ∈ calls ∧ expectedOutput 0 calls = framedLine "ERROR  : " e := by
  have hfilter := hperm.filter fun c => decide (c.threshold ≤ 0)
  have hsingle : ([Channel.error, Channel.warn, Channel.info, Channel.debug].filter
      fun c => decide (c.threshold ≤ 0)) = [Channel.error] := by decide
  rw [hsingle, List.perm_singleton, List.filter_map] at hfilter
  have hF : ∀ F : List (Channel × List Char), F.map Prod.fst = [Channel.error] →
      ∃ e, F = [(Channel.error, e)] := by
    intro F hmap
    match F, hmap with
    | [(c, e)], hmap =>
      have hc : c = Channel.error := by simpa using hmap
      exact ⟨e, by rw [hc]⟩
  obtain ⟨e, he⟩ := hF _ hfilter
  refine ⟨e, ?_, ?_⟩
  · have hmem : (Channel.error, e) ∈
        calls.filter ((fun c : Channel => decide (c.threshold ≤ 0)) ∘ Prod.fst) := by
      rw [he]; simp
    exact (List.mem_filter.mp hmem).1
  · have he2 : (calls.filter fun call => decide (call.1.threshold ≤ 0))
        = [(Channel.error, e)] := he
    unfold expectedOutput
    rw [he2]
    simp [Channel.tag]

theorem flushedWith_ne_self (s : FileStream) (tag : String) (body : List Char) :
    s.flushedWith (framedLine tag body) ≠ s := by
  intro h
  have hc := congrArg (fun t => t.content.length) h
  simp [flushedWith_content, framedLine] at hc

theorem emitBody_ne_self (tag : String) (htag : tag.data.length = 9) (text : List Char)
    (s : FileStream) : emitBody tag text s ≠ some s := by
  intro h
  obtain ⟨body, hbody⟩ := emitBody_returns tag htag text s s h
  exact flushedWith_ne_self s tag body hbody.symm

theorem emitBody_content (tag : String) (htag : tag.data.length = 9) (text : List Char)
    (s : FileStream) (h : text.length < Reporting.BUFLEN) :
    ∃ after, emitBody tag text s = some after ∧
      after.content = s.content ++ framedLine tag text :=
  ⟨_, emitBody_fits tag htag text s h, flushedWith_content s _⟩

/-! ## The tiered logger: claims -/

/-- Supporting fact on the gating of the channels. For every message a
call of `log_warn`, `log_info`, `log_debug` leaves the stream as it was
exactly when the verbosity is below 1, 2, 3, and `log_error` never does; a call
that is not suppressed appends its framed line when the formatted message fits
the buffer.  The four loggers called once each, in any order, with messages
that fit and hold no line terminator, append exactly the ERROR line (one line)
at verbosity 0 and four lines at verbosity 3. -/
theorem channels_gated_by_verbosity (v : Nat) (text : List Char) (s : FileStream)
    (calls : List (Channel × List Char))
    (hperm : (calls.map Prod.fst).Perm
      [Channel.error, Channel.warn, Channel.info, Channel.debug])
    (hfit : ∀ call ∈ calls, call.2.length < Reporting.BUFLEN)
    (hnl : ∀ call ∈ calls, NEWLINE ∉ call.2) :
    Reporting.log_error v text s ≠ some s ∧
    (Reporting.log_warn v text s = some s ↔ v < 1) ∧
    (Reporting.log_info v text s = some s ↔ v < 2) ∧
    (Reporting.log_debug v text s = some s ↔ v < 3) ∧
    (text.length < Reporting.BUFLEN →
      (∃ after, Reporting.log_error v text s = some after ∧
        after.content = s.content ++ framedLine "ERROR  : " text) ∧
      (1 ≤ v → ∃ after, Reporting.log_warn v text s = some after ∧
        after.content = s.content ++ framedLine "WARNING: " text) ∧
      (2 ≤ v → ∃ after, Reporting.log_info v text s = some after ∧
        after.content = s.content ++ framedLine "INFO   : " text) ∧
      (3 ≤ v → ∃ after, Reporting.log_debug v text s = some after ∧
        after.content = s.content ++ framedLine "DEBUG  : " text)) ∧
    (∃ after e, runCalls 0 calls s = some after ∧ (Channel.error, e) ∈ calls ∧
      after.content = s.content ++ framedLine "ERROR  : " e ∧
      lineCount (framedLine "ERROR  : " e) = 1) ∧
    (∃ after, runCalls 3 calls s = some after ∧
      after.content = s.content ++ expectedOutput 3 calls ∧
      lineCount (expectedOutput 3 calls) = 4) := by
  refine ⟨?_, ?_, ?_, ?_, ?_, ?_, ?_⟩
  · rw [log_error_eq]
    exact emitBody_ne_self "ERROR  : " rfl text s
  · rw [log_warn_eq]
    by_cases h : 1 ≤ v
    · rw [if_pos h]
      exact ⟨fun he => absurd he (emitBody_ne_self "WARNING: " rfl text s), fun hlt => by omega⟩
    · rw [if_neg h]
      exact ⟨fun _ => by omega, fun _ => rfl⟩
  · rw [log_info_eq]
    by_cases h : 2 ≤ v
    · rw [if_pos h]
      exact ⟨fun he => absurd he (emitBody_ne_self "INFO   : " rfl text s), fun hlt => by omega⟩
    · rw [if_neg h]
      exact ⟨fun _ => by omega, fun _ => rfl⟩
  · rw [log_debug_eq]
    by_cases h : 3 ≤ v
    · rw [if_pos h]
      exact ⟨fun he => absurd he (emitBody_ne_self "DEBUG  : " rfl text s), fun hlt => by omega⟩
    · rw [if_neg h]
      exact ⟨fun _ => by omega, fun _ => rfl⟩
  · intro hlen
    refine ⟨?_, ?_, ?_, ?_⟩
    · rw [log_error_eq]; exact emitBody_content "ERROR  : " rfl text s hlen
    · intro h; rw [log_warn_eq, if_pos h]; exact emitBody_content "WARNING: " rfl text s hlen
    · intro h; rw [log_info_eq, if_pos h]; exact emitBody_content "INFO   : " rfl text s hlen
    · intro h; rw [log_debug_eq, if_pos h]; exact emitBody_content "DEBUG  : " rfl text s hlen
  · obtain ⟨after, hrun, hcontent⟩ := runCalls_fits 0 calls s hfit
    obtain ⟨e, hmem, hout⟩ := expectedOutput_error_only calls hperm
    refine ⟨after, e, hrun, hmem, ?_, ?_⟩
    · rw [hcontent, hout]
    · exact lineCount_framedLine _ _ (by decide) (hnl _ hmem)
  · obtain ⟨after, hrun, hcontent⟩ := runCalls_fits 3 calls s hfit
    refine ⟨after, hrun, hcontent, ?_⟩
    rw [lineCount_expectedOutput 3 calls hnl, hperm.countP_eq]
    decide

/-- Instance of `channels_gated_by_verbosity`: the four loggers called in the
order error, warn, info, debug on an empty stream. -/
theorem channels_gated_by_verbosity_witness :
    ((([(Channel.error, "e".data), (Channel.warn, "w".data), (Channel.info, "i".data),
        (Channel.debug, "d".data)] : List (Channel × List Char)).map Prod.fst).Perm
      [Channel.error, Channel.warn, Channel.info, Channel.debug]) ∧
    (∀ call ∈ ([(Channel.error, "e".data), (Channel.warn, "w".data), (Channel.info, "i".data),
        (Channel.debug, "d".data)] : List (Channel × List Char)),
      call.2.length < Reporting.BUFLEN) ∧
    (∀ call ∈ ([(Channel.error, "e".data), (Channel.warn, "w".data), (Channel.info, "i".data),
        (Channel.debug, "d".data)] : List (Channel × List Char)), NEWLINE ∉ call.2) ∧
    (Reporting.log_warn 0 "m".data ⟨[], []⟩ = some ⟨[], []⟩ ↔ 0 < 1) :=
  ⟨List.Perm.refl _, by decide, by decide,
    (channels_gated_by_verbosity 0 "m".data ⟨[], []⟩
      [(Channel.error, "e".data), (Channel.warn, "w".data), (Channel.info, "i".data),
        (Channel.debug, "d".data)]
      (List.Perm.refl _) (by decide) (by decide)).2.1⟩

/-- C6. For a formatted message shorter than `BUFLEN` (the empty one
included), every logger call that is not suppressed appends to the stream
exactly its 9-byte severity tag, the message unchanged and one line
terminator, in this order and nothing else. -/
theorem emitted_line_framed (v : Nat) (text : List Char) (s : FileStream)
    (hlen : text.length < Reporting.BUFLEN) :
    ("ERROR  : ".data.length = 9 ∧ "WARNING: ".data.length = 9 ∧
      "INFO   : ".data.length = 9 ∧ "DEBUG  : ".data.length = 9) ∧
    (∃ after, Reporting.log_error v text s = some after ∧
      after.content = s.content ++ ("ERROR  : ".data ++ text ++ [NEWLINE])) ∧
    (1 ≤ v → ∃ after, Reporting.log_warn v text s = some after ∧
      after.content = s.content ++ ("WARNING: ".data ++ text ++ [NEWLINE])) ∧
    (2 ≤ v → ∃ after, Reporting.log_info v text s = some after ∧
      after.content = s.content ++ ("INFO   : ".data ++ text ++ [NEWLINE])) ∧
    (3 ≤ v → ∃ after, Reporting.log_debug v text s = some after ∧
      after.content = s.content ++ ("DEBUG  : ".data ++ text ++ [NEWLINE])) := by
  refine ⟨⟨rfl, rfl, rfl, rfl⟩, ?_, ?_, ?_, ?_⟩
  · rw [log_error_eq]; exact emitBody_content "ERROR  : " rfl text s hlen
  · intro h; rw [log_warn_eq, if_pos h]; exact emitBody_content "WARNING: " rfl text s hlen
  · intro h; rw [log_info_eq, if_pos h]; exact emitBody_content "INFO   : " rfl text s hlen
  · intro h; rw [log_debug_eq, if_pos h]; exact emitBody_content "DEBUG  : " rfl text s hlen

/-- Instance of `emitted_line_framed`: `log_info` at verbosity 2 with the empty
message, on a stream that already holds output. -/
theorem emitted_line_framed_witness :
    ([] : List Char).length < Reporting.BUFLEN ∧ 2 ≤ 2 ∧
      ∃ after, Reporting.log_info 2 [] ⟨"a".data, "b".data⟩ = some after ∧
        after.content
          = (⟨"a".data, "b".data⟩ : FileStream).content ++ ("INFO   : ".data ++ [] ++ [NEWLINE]) :=
  ⟨by decide, by decide,
    (emitted_line_framed 2 [] ⟨"a".data, "b".data⟩ (by decide)).2.2.2.1 (by decide)⟩

/-- C7 (the code departs from the claim). A formatted text of `BUFLEN` bytes
makes every logger write `BUFLEN` bytes from `buff`: the first `BUFLEN - 1`
bytes of the text and the `NUL` stored after them.  A longer text makes it
pass the length of the whole text, which exceeds the size of `buff`, to
`fwrite`, which then reads past the end of `buff`. -/
theorem overlong_message_overread (v : Nat) (text : List Char) (s : FileStream) :
    (text.length = Reporting.BUFLEN →
      Reporting.log_error v text s
        = some (s.flushedWith ("ERROR  : ".data ++ (text.take 1023 ++ [NUL]) ++ [NEWLINE])) ∧
      (2 ≤ v → Reporting.log_info v text s
        = some (s.flushedWith ("INFO   : ".data ++ (text.take 1023 ++ [NUL]) ++ [NEWLINE])))) ∧
    (Reporting.BUFLEN < text.length →
      Reporting.BUFLEN < toSizeT (vsnprintf Reporting.BUFLEN text).2 ∧
      Reporting.log_error v text s = none ∧
      (1 ≤ v → Reporting.log_warn v text s = none) ∧
      (2 ≤ v → Reporting.log_info v text s = none) ∧
      (3 ≤ v → Reporting.log_debug v text s = none)) := by
  constructor
  · intro h
    refine ⟨?_, ?_⟩
    · rw [log_error_eq]; exact emitBody_exact "ERROR  : " rfl text s h
    · intro hv; rw [log_info_eq, if_pos hv]; exact emitBody_exact "INFO   : " rfl text s h
  · intro h
    refine ⟨?_, ?_, ?_, ?_, ?_⟩
    · have h1024 : 1024 < text.length := h
      show 1024 < _
      by_cases hs : text.length < 2 ^ 31
      · rw [toSizeT_vsnprintf_small _ _ hs]; exact h1024
      · rw [toSizeT_vsnprintf_large _ _ hs]; decide
    · rw [log_error_eq]; exact emitBody_overlong "ERROR  : " rfl text s h
    · intro hv; rw [log_warn_eq, if_pos hv]; exact emitBody_overlong "WARNING: " rfl text s h
    · intro hv; rw [log_info_eq, if_pos hv]; exact emitBody_overlong "INFO   : " rfl text s h
    · intro hv; rw [log_debug_eq, if_pos hv]; exact emitBody_overlong "DEBUG  : " rfl text s h

/-- Instance of `overlong_message_overread`: `log_error` with a formatted text
of 2000 bytes. -/
theorem overlong_message_overread_witness :
    Reporting.BUFLEN < (List.replicate 2000 'A').length ∧
      Reporting.log_error 0 (List.replicate 2000 'A') ⟨[], []⟩ = none :=
  ⟨by rw [List.length_replicate]; decide,
    ((overlong_message_overread 0 (List.replicate 2000 'A') ⟨[], []⟩).2
      (by rw [List.length_replicate]; decide)).2.1⟩

/-- Supporting fact on flushing. Every logger call that is not suppressed and
returns has flushed: the stream's buffer is empty and the durable output is the previous content
followed by the line of the call (tag, bytes of the message, line
terminator).  The call returns whenever the formatted message does not exceed
`BUFLEN`, and for a message shorter than `BUFLEN` the flushed line is tag,
message, line terminator. -/
theorem emitting_call_flushes (c : Channel) (v : Nat) (text : List Char) (s : FileStream)
    (hv : c.threshold ≤ v) :
    (text.length < Reporting.BUFLEN →
      c.log v text s = some
        { durable := s.durable ++ s.pending ++ (c.tag.data ++ text ++ [NEWLINE]),
          pending := [] }) ∧
    (text.length ≤ Reporting.BUFLEN → ∃ after, c.log v text s = some after) ∧
    (∀ after, c.log v text s = some after →
      after.pending = [] ∧
      ∃ body, after.durable = s.durable ++ s.pending ++ (c.tag.data ++ body ++ [NEWLINE])) := by
  rw [Channel.log_eq, if_pos hv]
  refine ⟨?_, ?_, ?_⟩
  · intro hlen
    exact emitBody_fits c.tag c.tag_length text s hlen
  · intro hle
    rcases Nat.lt_or_eq_of_le hle with hlt | heq
    · exact ⟨_, emitBody_fits c.tag c.tag_length text s hlt⟩
    · exact ⟨_, emitBody_exact c.tag c.tag_length text s heq⟩
  · intro after h
    obtain ⟨body, hbody⟩ := emitBody_returns c.tag c.tag_length text s after h
    subst hbody
    exact ⟨rfl, body, rfl⟩

/-- Instance of `emitting_call_flushes`: `log_warn` at verbosity 1 on a stream
with flushed and unflushed output. -/
theorem emitting_call_flushes_witness :
    Channel.warn.threshold ≤ 1 ∧ "hi".data.length < Reporting.BUFLEN ∧
      Reporting.log_warn 1 "hi".data ⟨"a".data, "b".data⟩
        = some ⟨"a".data ++ "b".data ++ ("WARNING: ".data ++ "hi".data ++ [NEWLINE]), []⟩ :=
  ⟨by decide, by decide,
    (emitting_call_flushes Channel.warn 1 "hi".data ⟨"a".data, "b".data⟩ (by decide)).1
      (by decide)⟩

/-! ## The two lookups compared: further claims -/

/-- C14. For every code that equals no entry of `error_codes`,
`GetErrorString` returns "Undocumented error" and `SCIGetErrorString` returns
"Unknown error", so the two functions give different results on every code
that is not in the table. -/
theorem sentinels_differ (hdr : SisciHeader) (code : Nat)
    (h : code ∉ Errstr.error_codes hdr) :
    Errstr.GetErrorString hdr code = some "Undocumented error" ∧
    Reporting.SCIGetErrorString hdr code = some "Unknown error" ∧
    Errstr.GetErrorString hdr code ≠ Reporting.SCIGetErrorString hdr code := by
  have hget : Errstr.GetErrorString hdr code = some "Undocumented error" :=
    scanTable_not_mem Errstr.error_strings "Undocumented error" code _ 0 h
  have hsci : Reporting.SCIGetErrorString hdr code = some "Unknown error" :=
    scanTable_not_mem Reporting.error_strings "Unknown error" code _ 0 h
  refine ⟨hget, hsci, ?_⟩
  rw [hget, hsci]
  decide

/-- Instance of `sentinels_differ`: 4242 is no entry of the table under the
sample header. -/
theorem sentinels_differ_witness :
    4242 ∉ Errstr.error_codes sampleHeader ∧
      Errstr.GetErrorString sampleHeader 4242 = some "Undocumented error" :=
  ⟨by decide, (sentinels_differ sampleHeader 4242 (by decide)).1⟩

/-- C15. With pairwise distinct constants, `SCI_ERR_NOSPC` and
`SCI_ERR_COND_INT_RACE_PROBLEM` are two different codes of the table for which
`SCIGetErrorString` returns the same message "Out of local resources": the
lookup is not injective on the codes of the table. -/
theorem lookup_not_injective (hdr : SisciHeader) (hd : hdr.Distinct) :
    hdr SCI_ERR_NOSPC ≠ hdr SCI_ERR_COND_INT_RACE_PROBLEM ∧
    hdr SCI_ERR_NOSPC ∈ Reporting.error_codes hdr ∧
    hdr SCI_ERR_COND_INT_RACE_PROBLEM ∈ Reporting.error_codes hdr ∧
    Reporting.SCIGetErrorString hdr (hdr SCI_ERR_NOSPC) = some "Out of local resources" ∧
    Reporting.SCIGetErrorString hdr (hdr SCI_ERR_COND_INT_RACE_PROBLEM)
      = some "Out of local resources" := by
  have h4 : (Reporting.error_codes hdr)[4]? = some (hdr SCI_ERR_NOSPC) := rfl
  have h30 : (Reporting.error_codes hdr)[30]? = some (hdr SCI_ERR_COND_INT_RACE_PROBLEM) := rfl
  refine ⟨fun h => ?_, List.getElem?_mem h4, List.getElem?_mem h30,
    (reporting_lookup_at hdr hd 4 _ h4).trans rfl,
    (reporting_lookup_at hdr hd 30 _ h30).trans rfl⟩
  exact absurd (hd h) (by decide)

/-- Instance of `lookup_not_injective` at the sample header, where the two
constants are 4 and 30. -/
theorem lookup_not_injective_witness :
    sampleHeader.Distinct ∧
      Reporting.SCIGetErrorString sampleHeader 4 = some "Out of local resources" ∧
      Reporting.SCIGetErrorString sampleHeader 30 = some "Out of local resources" :=
  ⟨sampleHeader_distinct,
    (lookup_not_injective sampleHeader sampleHeader_distinct).2.2.2.1,
    (lookup_not_injective sampleHeader sampleHeader_distinct).2.2.2.2⟩

/-! ## Facts about `log_ioaddr` -/

theorem scanTable_some_mem (strs : List String) (sentinel : String) (code : Nat) (msg : String) :
    ∀ (codes : List Nat) (idx : Nat), scanTable strs sentinel code codes idx = some msg →
      msg ∈ strs ∨ msg = sentinel := by
  intro codes
  induction codes with
  | nil =>
    intro idx h
    exact Or.inr (Option.some.inj h).symm
  | cons c rest ih =>
    intro idx h
    by_cases hc : c = code
    · rw [scanTable, if_pos hc] at h
      exact Or.inl (List.getElem?_mem h)
    · rw [scanTable, if_neg hc] at h
      exact ih (idx + 1) h

theorem error_strings_short :
    ∀ msg ∈ Reporting.error_strings, msg.data.length ≤ 49 ∧ NEWLINE ∉ msg.data := by decide

theorem lookup_message_short (hdr : SisciHeader) (code : Nat) (msg : String)
    (h : Reporting.SCIGetErrorString hdr code = some msg) :
    msg.data.length ≤ 49 ∧ NEWLINE ∉ msg.data := by
  rcases scanTable_some_mem _ _ _ _ _ _ h with hmem | hsent
  · exact error_strings_short msg hmem
  · subst hsent
    decide

theorem digitChar_ne_newline : ∀ d, d < 16 → Nat.digitChar d ≠ NEWLINE := by decide

theorem toDigitsCore_length (k : Nat) :
    ∀ (fuel n : Nat) (ds : List Char), n < 16 ^ (k + 1) →
      (Nat.toDigitsCore 16 fuel n ds).length ≤ ds.length + (k + 1) := by
  induction k with
  | zero =>
    intro fuel n ds hn
    cases fuel with
    | zero => simp [Nat.toDigitsCore]
    | succ fuel =>
      have h0 : n / 16 = 0 := by omega
      simp [Nat.toDigitsCore, h0]
  | succ k ih =>
    intro fuel n ds hn
    cases fuel with
    | zero => simp [Nat.toDigitsCore]
    | succ fuel =>
      by_cases h0 : n / 16 = 0
      · simp [Nat.toDigitsCore, h0]
      · have hdiv : n / 16 < 16 ^ (k + 1) := by
          rw [Nat.pow_succ] at hn
          exact Nat.div_lt_of_lt_mul (by rw [Nat.mul_comm]; exact hn)
        have := ih fuel (n / 16) (Nat.digitChar (n % 16) :: ds) hdiv
        simp only [List.length_cons] at this
        simp only [Nat.toDigitsCore, h0, if_false]
        omega

theorem toDigitsCore_no_newline :
    ∀ (fuel n : Nat) (ds : List Char), NEWLINE ∉ ds →
      NEWLINE ∉ Nat.toDigitsCore 16 fuel n ds := by
  intro fuel
  induction fuel with
  | zero => intro n ds h; simpa [Nat.toDigitsCore] using h
  | succ fuel ih =>
    intro n ds h
    have hcons : NEWLINE ∉ Nat.digitChar (n % 16) :: ds := by
      intro hmem
      rcases List.mem_cons.mp hmem with heq | hds
      · exact digitChar_ne_newline _ (Nat.mod_lt n (by decide)) heq.symm
      · exact h hds
    by_cases h0 : n / 16 = 0
    · simpa [Nat.toDigitsCore, h0] using hcons
    · simp only [Nat.toDigitsCore, h0, if_false]
      exact ih _ _ hcons

theorem formatHex08_length (value : Nat) : (formatHex08 value).length ≤ 16 := by
  have hlt : value % 2 ^ 64 < 16 ^ (15 + 1) := by
    have : (16 : Nat) ^ (15 + 1) = 2 ^ 64 := by norm_num
    rw [this]
    exact Nat.mod_lt _ (by norm_num)
  have := toDigitsCore_length 15 (value % 2 ^ 64 + 1) (value % 2 ^ 64) [] hlt
  simp only [List.length_nil] at this
  simp only [formatHex08, Nat.toDigits, List.length_append, List.length_replicate]
  omega

theorem formatHex08_no_newline (value : Nat) : NEWLINE ∉ formatHex08 value := by
  have hd := toDigitsCore_no_newline (value % 2 ^ 64 + 1) (value % 2 ^ 64) [] (by simp)
  intro hmem
  simp only [formatHex08, Nat.toDigits, List.mem_append] at hmem
  rcases hmem with hpad | hdig
  · have := List.eq_of_mem_replicate hpad
    exact absurd this (by decide)
  · exact hd hdig

/-- Supporting fact on `log_ioaddr`. Below verbosity 3 it calls no `SCIQuery`
and leaves the stream as it is.  From verbosity 3 on it calls `SCIQuery` once and appends
exactly one line: when the query stores a status other than `SCI_ERR_OK` for
which `SCIGetErrorString` yields a message, the ERROR line whose text is
"Failed to query local segment: " followed by that message, and no DEBUG line;
when the query stores `SCI_ERR_OK`, the DEBUG line with the IO address. -/
theorem log_ioaddr_reports (hdr : SisciHeader) (SCIQuery : Nat → QueryAnswer) (v segment : Nat)
    (proc : Process) :
    (v < 3 → Reporting.log_ioaddr hdr SCIQuery v segment proc = some proc) ∧
    (3 ≤ v → (SCIQuery segment).err ≠ hdr SCI_ERR_OK →
      ∀ msg, Reporting.SCIGetErrorString hdr (SCIQuery segment).err = some msg →
        Reporting.log_ioaddr hdr SCIQuery v segment proc = some
          { stderr := proc.stderr.flushedWith
              (framedLine "ERROR  : " ("Failed to query local segment: ".data ++ msg.data)),
            queried := proc.queried ++ [segment] } ∧
        lineCount (framedLine "ERROR  : " ("Failed to query local segment: ".data ++ msg.data))
          = 1) ∧
    (3 ≤ v → (SCIQuery segment).err = hdr SCI_ERR_OK →
      Reporting.log_ioaddr hdr SCIQuery v segment proc = some
        { stderr := proc.stderr.flushedWith
            (framedLine "DEBUG  : "
              ("Local segment has IO addr: 0x".data ++ formatHex08 (SCIQuery segment).ioaddr)),
          queried := proc.queried ++ [segment] } ∧
      lineCount (framedLine "DEBUG  : "
          ("Local segment has IO addr: 0x".data ++ formatHex08 (SCIQuery segment).ioaddr))
        = 1) := by
  refine ⟨?_, ?_, ?_⟩
  · intro hv
    have : ¬ v ≥ 3 := by omega
    simp [Reporting.log_ioaddr, this]
  · intro hv herr msg hmsg
    obtain ⟨hshort, hnl⟩ := lookup_message_short hdr _ msg hmsg
    have hlen : ("Failed to query local segment: ".data ++ msg.data).length
        < Reporting.BUFLEN := by
      have h31 : "Failed to query local segment: ".data.length = 31 := rfl
      rw [List.length_append, h31]
      show _ < 1024
      omega
    constructor
    · have hv3 : v ≥ 3 := hv
      simp only [Reporting.log_ioaddr, if_pos hv3, herr, hmsg, ne_eq, not_false_eq_true,
        if_true, Option.bind, log_error_eq,
        emitBody_fits "ERROR  : " rfl _ proc.stderr hlen]
    · refine lineCount_framedLine _ _ (by decide) ?_
      intro hmem
      rcases List.mem_append.mp hmem with h | h
      · exact absurd h (by decide)
      · exact hnl h
  · intro hv herr
    have hlen : ("Local segment has IO addr: 0x".data
        ++ formatHex08 (SCIQuery segment).ioaddr).length < Reporting.BUFLEN := by
      have h29 : "Local segment has IO addr: 0x".data.length = 29 := rfl
      have h16 := formatHex08_length (SCIQuery segment).ioaddr
      rw [List.length_append, h29]
      show _ < 1024
      omega
    constructor
    · have hv3 : v ≥ 3 := hv
      have hv3b : 3 ≤ v := hv
      simp only [Reporting.log_ioaddr, if_pos hv3, herr, ne_eq, not_true_eq_false,
        if_false, Option.bind, log_debug_eq, if_pos hv3b,
        emitBody_fits "DEBUG  : " rfl _ proc.stderr hlen]
    · refine lineCount_framedLine _ _ (by decide) ?_
      intro hmem
      rcases List.mem_append.mp hmem with h | h
      · exact absurd h (by decide)
      · exact formatHex08_no_newline _ h

/-- Instance of `log_ioaddr_reports`: at verbosity 3, the sample query of
segment 7 fails with `SCI_ERR_NO_SUCH_SEGMENT`, whose message is
"Segment ID not found". -/
theorem log_ioaddr_reports_witness :
    3 ≤ 3 ∧ (sampleQuery 7).err ≠ sampleHeader SCI_ERR_OK ∧
      Reporting.SCIGetErrorString sampleHeader (sampleQuery 7).err
        = some "Segment ID not found" ∧
      Reporting.log_ioaddr sampleHeader sampleQuery 3 7 ⟨⟨[], []⟩, []⟩ = some
        { stderr := (⟨[], []⟩ : FileStream).flushedWith
            (framedLine "ERROR  : "
              ("Failed to query local segment: ".data ++ "Segment ID not found".data)),
          queried := [] ++ [7] } :=
  ⟨by decide, by decide, by decide,
    ((log_ioaddr_reports sampleHeader sampleQuery 3 7 ⟨⟨[], []⟩, []⟩).2.1 (by decide)
      (by decide) "Segment ID not found" (by decide)).1⟩

/-! ## The directional copies: claims -/

theorem zeroFill_drop (len : Nat) (region : List Nat) :
    (zeroFill len region).drop len = region.drop len := by
  unfold zeroFill
  by_cases h : len ≤ region.length
  · rw [Nat.min_eq_left h]
    exact List.drop_left' (List.length_replicate _ _)
  · have hge : region.length ≤ len := by omega
    have hnil : region.drop len = [] := List.drop_of_length_le hge
    rw [Nat.min_eq_right hge, hnil, List.append_nil]
    exact List.drop_of_length_le (by rw [List.length_replicate]; exact hge)

/-- C12. A copy of the `N` bytes of a device buffer to a remote region of at
least `N` bytes, followed by a copy of `N` bytes of that region into a buffer
of `N` zero bytes, leaves the buffer holding exactly the original bytes, when
the fabric completes both transfers and the remote region is not written in
between; this holds whatever the `clear` flags are. -/
theorem transfer_round_trip (content remote : List Nat) (clearOut clearBack fabricClears : Bool)
    (hfit : content.length ≤ remote.length) :
    ∃ remoteAfter,
      gpu_memcpy_local_to_remote none fabricClears content remote content.length clearOut
        = TransferOutcome.transferred content.length remoteAfter ∧
      remoteAfter.length = remote.length ∧
      gpu_memcpy_remote_to_local none (List.replicate content.length 0) remoteAfter
          content.length clearBack
        = TransferOutcome.transferred content.length content := by
  refine ⟨content ++ remote.drop content.length, ?_, ?_, ?_⟩
  · have hdest : ((if (clearOut && fabricClears) = true then zeroFill content.length remote
        else remote).drop content.length) = remote.drop content.length := by
      split
      · exact zeroFill_drop _ _
      · rfl
    simp only [gpu_memcpy_local_to_remote, hdest, List.take_length]
  · rw [List.length_append, List.length_drop]
    omega
  · have hdest : ((if clearBack = true then
          zeroFill content.length (List.replicate content.length 0)
        else List.replicate content.length 0).drop content.length) = [] := by
      split
      · rw [zeroFill_drop]; exact List.drop_of_length_le (by simp)
      · exact List.drop_of_length_le (by simp)
    simp only [gpu_memcpy_remote_to_local, hdest, List.take_left, List.append_nil]

/-- Instance of `transfer_round_trip`: three bytes sent to a remote region of
four bytes and read back. -/
theorem transfer_round_trip_witness :
    ([1, 2, 3] : List Nat).length ≤ ([9, 9, 9, 9] : List Nat).length ∧
      ∃ remoteAfter,
        gpu_memcpy_local_to_remote none true [1, 2, 3] [9, 9, 9, 9] ([1, 2, 3] : List Nat).length
            true
          = TransferOutcome.transferred ([1, 2, 3] : List Nat).length remoteAfter ∧
        remoteAfter.length = ([9, 9, 9, 9] : List Nat).length ∧
        gpu_memcpy_remote_to_local none (List.replicate ([1, 2, 3] : List Nat).length 0)
            remoteAfter ([1, 2, 3] : List Nat).length false
          = TransferOutcome.transferred ([1, 2, 3] : List Nat).length [1, 2, 3] :=
  ⟨by decide, transfer_round_trip [1, 2, 3] [9, 9, 9, 9] true false true (by decide)⟩

/-! ## The tiered logger on messages that reach the buffer bound: claims -/

theorem Channel.log_overlong (c : Channel) (v : Nat) (text : List Char) (s : FileStream)
    (hv : c.threshold ≤ v) (hlong : Reporting.BUFLEN < text.length) :
    c.log v text s = none := by
  rw [Channel.log_eq, if_pos hv]
  exact emitBody_overlong c.tag c.tag_length text s hlong

theorem runCalls_overlong (v : Nat) (call : Channel × List Char)
    (hv : call.1.threshold ≤ v) (hlong : Reporting.BUFLEN < call.2.length) :
    ∀ (calls : List (Channel × List Char)) (s : FileStream), call ∈ calls →
      runCalls v calls s = none := by
  intro calls
  induction calls with
  | nil => intro s h; simp at h
  | cons head rest ih =>
    intro s hmem
    rcases List.mem_cons.mp hmem with heq | hrest
    · subst heq
      simp [runCalls, Channel.log_overlong call.1 v call.2 s hv hlong]
    · cases hlog : head.1.log v head.2 s with
      | none => simp [runCalls, hlog]
      | some after => simp [runCalls, hlog, ih after hrest]

/-- C5 (the code departs from the claim). A logger call that is not
suppressed and whose formatted message is longer than `BUFLEN` does not emit
its line: it reads past the end of `buff` instead.  So `log_error` fails to
emit its line at every verbosity for such a message, and a sequence of logger
calls that contains such a call does not produce its lines, whatever the
verbosity and whether or not the messages hold a line terminator. -/
theorem overlong_message_emits_no_line (v : Nat) (calls : List (Channel × List Char))
    (s : FileStream) (call : Channel × List Char) (hmem : call ∈ calls)
    (hv : call.1.threshold ≤ v) (hlong : Reporting.BUFLEN < call.2.length) :
    call.1.log v call.2 s = none ∧ runCalls v calls s = none :=
  ⟨Channel.log_overlong call.1 v call.2 s hv hlong, runCalls_overlong v call hv hlong calls s hmem⟩

/-- Instance of `overlong_message_emits_no_line`: the four loggers called once
each at verbosity 0, the message of `log_error` having 2000 bytes and no line
terminator. -/
theorem overlong_message_emits_no_line_witness :
    Reporting.BUFLEN < (List.replicate 2000 'A').length ∧
      Channel.error.log 0 (List.replicate 2000 'A') ⟨[], []⟩ = none ∧
      runCalls 0
        [(Channel.error, List.replicate 2000 'A'), (Channel.warn, "w".data),
          (Channel.info, "i".data), (Channel.debug, "d".data)] ⟨[], []⟩ = none :=
  ⟨by rw [List.length_replicate]; decide,
    overlong_message_emits_no_line 0
      [(Channel.error, List.replicate 2000 'A'), (Channel.warn, "w".data),
        (Channel.info, "i".data), (Channel.debug, "d".data)] ⟨[], []⟩
      (Channel.error, List.replicate 2000 'A') (List.mem_cons_self _ _) (by decide)
      (by show Reporting.BUFLEN < (List.replicate 2000 'A').length
          rw [List.length_replicate]; decide)⟩

/-- C8 (the code departs from the claim). A logger call that is not
suppressed and whose formatted message has exactly `BUFLEN` bytes, none of
them `NUL`, returns with the stream flushed, but the durable output ends with
the tag, the first `BUFLEN - 1` bytes of the message, a `NUL` and the line
terminator, and does not end with the line tag, message, line terminator.  With
a longer message the call reads past the end of `buff`. -/
theorem boundary_message_line_not_durable (c : Channel) (v : Nat) (text : List Char)
    (s : FileStream) (hv : c.threshold ≤ v) :
    (text.length = Reporting.BUFLEN → NUL ∉ text →
      ∃ after, c.log v text s = some after ∧ after.pending = [] ∧
        after.durable
          = s.durable ++ s.pending ++ (c.tag.data ++ (text.take 1023 ++ [NUL]) ++ [NEWLINE]) ∧
        ¬ List.IsSuffix (c.tag.data ++ text ++ [NEWLINE]) after.durable) ∧
    (Reporting.BUFLEN < text.length → c.log v text s = none) := by
  refine ⟨?_, Channel.log_overlong c v text s hv⟩
  intro hlen hnul
  have h1024 : text.length = 1024 := hlen
  refine ⟨s.flushedWith (c.tag.data ++ (text.take 1023 ++ [NUL]) ++ [NEWLINE]),
    ?_, rfl, rfl, ?_⟩
  · rw [Channel.log_eq, if_pos hv]
    exact emitBody_exact c.tag c.tag_length text s hlen
  · rintro ⟨front, hfront⟩
    have hlens : (c.tag.data ++ text ++ [NEWLINE]).length
        = (c.tag.data ++ (text.take 1023 ++ [NUL]) ++ [NEWLINE]).length := by
      simp [List.length_append, List.length_take, h1024]
    have hfront2 : front ++ (c.tag.data ++ text ++ [NEWLINE])
        = (s.durable ++ s.pending)
          ++ (c.tag.data ++ (text.take 1023 ++ [NUL]) ++ [NEWLINE]) := hfront
    have heq := (List.append_inj' hfront2 hlens).2
    have htext : text = text.take 1023 ++ [NUL] := by
      have h2 := List.append_cancel_right heq
      exact List.append_cancel_left h2
    apply hnul
    rw [htext]
    simp

/-- Instance of `boundary_message_line_not_durable`: `log_error` with a message
of 1024 bytes on an empty stream. -/
theorem boundary_message_line_not_durable_witness :
    Channel.error.threshold ≤ 0 ∧ (List.replicate 1024 'A').length = Reporting.BUFLEN ∧
      NUL ∉ List.replicate 1024 'A' ∧
      ∃ after, Channel.error.log 0 (List.replicate 1024 'A') ⟨[], []⟩ = some after ∧
        after.pending = [] ∧
        after.durable
          = [] ++ [] ++ (Channel.error.tag.data ++ ((List.replicate 1024 'A').take 1023 ++ [NUL])
              ++ [NEWLINE]) ∧
        ¬ List.IsSuffix (Channel.error.tag.data ++ List.replicate 1024 'A' ++ [NEWLINE])
            after.durable :=
  ⟨by decide, by rw [List.length_replicate]; rfl,
    fun h => absurd (List.eq_of_mem_replicate h) (by decide),
    (boundary_message_line_not_durable Channel.error 0 (List.replicate 1024 'A') ⟨[], []⟩
      (by decide)).1 (by rw [List.length_replicate]; rfl)
      (fun h => absurd (List.eq_of_mem_replicate h) (by decide))⟩

/-! ## `log_ioaddr` on a status without a message: claim -/

theorem formatHex08_values :
    formatHex08 4096 = "00001000".data ∧ formatHex08 0 = "00000000".data ∧
    formatHex08 0xdeadbeef12 = "deadbeef12".data ∧
    formatHex08 (2 ^ 64 + 255) = "000000ff".data := by decide

theorem log_ioaddr_debug_line :
    Reporting.log_ioaddr sampleHeader sampleQuery 3 0 ⟨⟨[], []⟩, []⟩
      = some ⟨⟨"DEBUG  : Local segment has IO addr: 0x00001000\n".data, []⟩, [0]⟩ := by decide

/-- C13 (the code departs from the claim). With pairwise distinct constants,
at verbosity 3 or above, a query that stores `SCI_ERR_REMOTE_BUSY`,
`SCI_ERR_LOCAL_BUSY` or `SCI_ERR_ALL_BUSY`, statuses other than `SCI_ERR_OK`,
does not make `log_ioaddr` emit the ERROR line with the message of the status:
`SCIGetErrorString` reads `error_strings` past its end, so there is no message
to print. -/
theorem log_ioaddr_busy_status (hdr : SisciHeader) (hd : hdr.Distinct)
    (SCIQuery : Nat → QueryAnswer) (v segment : Nat) (proc : Process) (hv : 3 ≤ v)
    (herr : (SCIQuery segment).err = hdr SCI_ERR_REMOTE_BUSY ∨
      (SCIQuery segment).err = hdr SCI_ERR_LOCAL_BUSY ∨
      (SCIQuery segment).err = hdr SCI_ERR_ALL_BUSY) :
    (SCIQuery segment).err ≠ hdr SCI_ERR_OK ∧
    Reporting.SCIGetErrorString hdr (SCIQuery segment).err = none ∧
    Reporting.log_ioaddr hdr SCIQuery v segment proc = none := by
  have hne : (SCIQuery segment).err ≠ hdr SCI_ERR_OK := by
    intro hok
    rcases herr with h | h | h
    · exact absurd (hd (h.symm.trans hok)) (by decide)
    · exact absurd (hd (h.symm.trans hok)) (by decide)
    · exact absurd (hd (h.symm.trans hok)) (by decide)
  have hnone : Reporting.SCIGetErrorString hdr (SCIQuery segment).err = none :=
    (scan_none_iff hdr hd "Unknown error" _).mpr herr
  refine ⟨hne, hnone, ?_⟩
  have hv3 : v ≥ 3 := hv
  simp only [Reporting.log_ioaddr, if_pos hv3, hne, hnone, ne_eq, not_false_eq_true, if_true,
    Option.bind]

/-- Instance of `log_ioaddr_busy_status`: at verbosity 3 the sample query that
reports `SCI_ERR_REMOTE_BUSY`. -/
theorem log_ioaddr_busy_status_witness :
    sampleHeader.Distinct ∧ 3 ≤ 3 ∧
      (busyQuery 7).err = sampleHeader SCI_ERR_REMOTE_BUSY ∧
      (busyQuery 7).err ≠ sampleHeader SCI_ERR_OK ∧
      Reporting.log_ioaddr sampleHeader busyQuery 3 7 ⟨⟨[], []⟩, []⟩ = none :=
  ⟨sampleHeader_distinct, by decide, rfl,
    (log_ioaddr_busy_status sampleHeader sampleHeader_distinct busyQuery 3 7 ⟨⟨[], []⟩, []⟩
      (by decide) (Or.inl rfl)).1,
    (log_ioaddr_busy_status sampleHeader sampleHeader_distinct busyQuery 3 7 ⟨⟨[], []⟩, []⟩
      (by decide) (Or.inl rfl)).2.2⟩

/-! ## Logger calls of several threads: claim -/

